import Mathlib

/-!
Shallow embedding of the AXI-NEXFLOW chat-export scripts
(`scripts/export_bubbles_to_md.py`, `scripts/export_cursor_chat.py`,
`scripts/export_nexflow_chat.py`) and proofs about the claims of the
repository's specification.

Python's dynamically typed values are modelled by `PyVal` (no floats: the
scripts only ever manipulate ints, strings, lists, dicts, booleans and
`None` at the places the claims touch).  Python dictionaries are modelled
as association lists with first-match lookup; values produced by `json.loads`
never carry duplicate keys, so this is faithful on the reachable inputs.
Exceptions are modelled with `Except PyErr`; stdlib collaborators
(`json.loads`, `base64.b64decode`, `datetime` formatting) are external to the
repository and are passed in as function parameters.
-/

namespace AxiNexflow

/-- Python exception values, carrying the message that `str(e)` would print. -/
inductive PyErr where
  | attributeError (msg : String)
  | typeError (msg : String)
  | jsonDecodeError
  | binasciiError
  deriving Repr, DecidableEq

/-- Message text of an exception, as interpolated into f-strings by the scripts. -/
def PyErr.message : PyErr → String
  | .attributeError m => m
  | .typeError m => m
  | .jsonDecodeError => "Expecting value"
  | .binasciiError => "Invalid base64-encoded string"

/-- Python-like values as manipulated by the export scripts. -/
inductive PyVal where
  | none
  | bool (b : Bool)
  | int (n : Int)
  | str (s : String)
  | list (elems : List PyVal)
  | dict (entries : List (String × PyVal))
  deriving Repr

/-- Python truthiness (`bool(v)`): `None`, `False`, `0`, `""`, `[]`, `\x7b\x7d` are falsy. -/
def PyVal.truthy : PyVal → Bool
  | .none => false
  | .bool b => b
  | .int n => n != 0
  | .str s => s != ""
  | .list l => !l.isEmpty
  | .dict l => !l.isEmpty

mutual

/-- Python `==`.  Booleans compare equal to the corresponding ints
(`True == 1` holds in Python); containers compare element-wise.
(Dict comparison is order-sensitive here, unlike Python's; the scripts only
ever compare against int and string literals, where the two agree.) -/
def pyEq : PyVal → PyVal → Bool
  | .none, .none => true
  | .bool a, .bool b => a == b
  | .bool a, .int n => (if a then (1 : Int) else 0) == n
  | .int n, .bool b => n == (if b then (1 : Int) else 0)
  | .int a, .int b => a == b
  | .str a, .str b => a == b
  | .list a, .list b => pyEqList a b
  | .dict a, .dict b => pyEqEntries a b
  | _, _ => false

/-- Element-wise Python `==` on lists. -/
def pyEqList : List PyVal → List PyVal → Bool
  | [], [] => true
  | a :: as, b :: bs => pyEq a b && pyEqList as bs
  | _, _ => false

/-- Entry-wise Python `==` on dict entry lists. -/
def pyEqEntries : List (String × PyVal) → List (String × PyVal) → Bool
  | [], [] => true
  | (ka, va) :: as, (kb, vb) :: bs => ka == kb && pyEq va vb && pyEqEntries as bs
  | _, _ => false

end

/-- Dictionary lookup, `d.get(k)`: `None` when the key is absent. -/
def dget (m : List (String × PyVal)) (k : String) : PyVal :=
  match m.find? (fun e => e.1 == k) with
  | some e => e.2
  | Option.none => .none

/-- Dictionary lookup with default, `d.get(k, dflt)`. -/
def dgetD (m : List (String × PyVal)) (k : String) (dflt : PyVal) : PyVal :=
  match m.find? (fun e => e.1 == k) with
  | some e => e.2
  | Option.none => dflt

/-- Name of a value's type, as it appears in Python error messages. -/
def PyVal.typeName : PyVal → String
  | .none => "NoneType"
  | .bool _ => "bool"
  | .int _ => "int"
  | .str _ => "str"
  | .list _ => "list"
  | .dict _ => "dict"

/-- Attribute access `v.get(k)` on an arbitrary value: raises `AttributeError`
when `v` is not a dict. -/
def mGet : PyVal → String → Except PyErr PyVal
  | .dict m, k => .ok (dget m k)
  | v, _ => .error (.attributeError ("'" ++ v.typeName ++ "' object has no attribute 'get'"))

/-- Attribute access `v.get(k, dflt)` on an arbitrary value. -/
def mGetD : PyVal → String → PyVal → Except PyErr PyVal
  | .dict m, k, dflt => .ok (dgetD m k dflt)
  | v, _, _ => .error (.attributeError ("'" ++ v.typeName ++ "' object has no attribute 'get'"))

/-- Python `a or b` on two already-evaluated values: the first truthy operand. -/
def pyOr (a b : PyVal) : PyVal := if a.truthy then a else b

/-- Python `a or b` where evaluating `b` may raise: `b` is only evaluated
when `a` is falsy (short-circuit). -/
def pyOrE (a : PyVal) (b : Except PyErr PyVal) : Except PyErr PyVal :=
  if a.truthy then .ok a else b

/-- Characters removed by Python `str.strip()` (ASCII whitespace; the scripts
only strip ordinary text). -/
def isPySpace (c : Char) : Bool := c.isWhitespace

/-- List-of-characters model of `str.strip()`: drop whitespace at both ends. -/
def stripChars (l : List Char) : List Char :=
  ((l.dropWhile isPySpace).reverse.dropWhile isPySpace).reverse

/-- Python `s.strip()` on a string. -/
def pyStripStr (s : String) : String := String.mk (stripChars s.data)

/-- Python `v.strip()`: raises `AttributeError` on non-strings. -/
def stripE : PyVal → Except PyErr PyVal
  | .str s => .ok (.str (pyStripStr s))
  | v => .error (.attributeError ("'" ++ v.typeName ++ "' object has no attribute 'strip'"))

/-- Python `s.lower()` on a string, modelled at the character-list level
(ASCII-faithful case folding, which covers everything the scripts compare). -/
def pyLowerStr (s : String) : String := String.mk (s.data.map Char.toLower)

/-- Python `v.lower()`: raises `AttributeError` on non-strings. -/
def lowerE : PyVal → Except PyErr PyVal
  | .str s => .ok (.str (pyLowerStr s))
  | v => .error (.attributeError ("'" ++ v.typeName ++ "' object has no attribute 'lower'"))

/-- Python slicing `s[:n]` on a string (by code points, as in Python). -/
def pySliceStr (s : String) (n : Nat) : String := String.mk (s.data.take n)

/-- Python `v[:n]`: defined on strings; raises on the other scalars. -/
def sliceE : PyVal → Nat → Except PyErr PyVal
  | .str s, n => .ok (.str (pySliceStr s n))
  | .list l, n => .ok (.list (l.take n))
  | v, _ => .error (.typeError ("'" ++ v.typeName ++ "' object is not subscriptable"))

/-- Python `str(v)` for the scalar values the scripts stringify; container
reprs are abbreviated (they are never compared against plain words). -/
def pyStr : PyVal → String
  | .none => "None"
  | .bool b => if b then "True" else "False"
  | .int n => toString n
  | .str s => s
  | .list _ => "[...]"
  | .dict _ => "\x7b...\x7d"

/-- Python `len(v)`: raises `TypeError` on values without a length. -/
def pyLen : PyVal → Except PyErr Nat
  | .str s => .ok s.length
  | .list l => .ok l.length
  | .dict l => .ok l.length
  | v => .error (.typeError ("object of type '" ++ v.typeName ++ "' has no len()"))

/-- Python `datetime.fromtimestamp(ts / 1000).strftime(...) if ts else ""`:
`fmtTime` stands for the external datetime collaborator, applied only when
the timestamp value is truthy. -/
def timeStrE (fmtTime : Int → String) (ts : PyVal) : Except PyErr String :=
  if ts.truthy then
    match ts with
    | .int n => .ok (fmtTime n)
    | .bool b => .ok (fmtTime (if b then 1 else 0))
    | v => .error (.typeError ("an integer is required (got type " ++ v.typeName ++ ")"))
  else .ok ""

/-! ### Decoder

`export_bubbles_to_md.py` lines 39-42 and `export_cursor_chat.py` lines 39-45:
try `json.loads(raw)`; on `JSONDecodeError` try
`json.loads(base64.b64decode(raw).decode("utf-8"))`.  The stdlib collaborators
are parameters: `parse` returns `some v` exactly when `json.loads` succeeds,
`b64` returns `some s` exactly when both the base64 decode and the UTF-8
decode of the result succeed. -/

/-- Two-stage decode of a raw stored value: direct structured-text parse,
falling back to base64-then-parse; fails when both paths fail. -/
def decodePy (parse : String → Option PyVal) (b64 : String → Option String)
    (raw : String) : Except PyErr PyVal :=
  match parse raw with
  | some v => .ok v
  | Option.none =>
    match b64 raw with
    | some s =>
      match parse s with
      | some v => .ok v
      | Option.none => .error .jsonDecodeError
    | Option.none => .error .binasciiError

/-! ### Role resolvers (one per script) -/

/-- Role resolution of `export_bubbles_to_md.py` line 56 (inline strategy):
`"User" if msg.get("type") == 1 or (msg.get("role") or "").lower() == "user"
else "Assistant"`.  `.lower()` raises on a truthy non-string role. -/
def roleInline56 (msg : List (String × PyVal)) : Except PyErr String :=
  if pyEq (dget msg "type") (.int 1) then .ok "User"
  else
    match lowerE (pyOr (dget msg "role") (.str "")) with
    | .ok v => .ok (if pyEq v (.str "user") then "User" else "Assistant")
    | .error e => .error e

/-- Role resolution of `export_nexflow_chat.py` line 50:
`"User" if msg.get("type") == 1 or msg.get("role") == "user" else "Assistant"`
(the string comparison is case-sensitive). -/
def roleNexflow50 (msg : List (String × PyVal)) : String :=
  if pyEq (dget msg "type") (.int 1) || pyEq (dget msg "role") (.str "user") then "User"
  else "Assistant"

/-- Role resolution of `export_cursor_chat.py` line 75 (`format_msg`):
`"User" if msg.get("type") == 1 else "Assistant"` — the `role` field is
not consulted at all. -/
def formatMsgRole (msg : List (String × PyVal)) : String :=
  if pyEq (dget msg "type") (.int 1) then "User" else "Assistant"

/-- Role resolution of `export_bubbles_to_md.py` line 75 (fan-out strategy):
`"User" if (b.get("type") or b.get("role") or 0) == 1 or
(str(b.get("role", "")).lower() == "user") else "Assistant"`. -/
def roleFanout75 (b : List (String × PyVal)) : String :=
  if pyEq (pyOr (pyOr (dget b "type") (dget b "role")) (.int 0)) (.int 1)
      || pyLowerStr (pyStr (dgetD b "role" (.str ""))) == "user" then "User"
  else "Assistant"

/-! ### Text resolvers -/

/-- Text resolution of `export_bubbles_to_md.py` line 57 (inline strategy):
`(msg.get("text") or msg.get("content") or msg.get("rawText") or "").strip()`. -/
def textInline57 (msg : List (String × PyVal)) : Except PyErr PyVal :=
  stripE (pyOr (pyOr (pyOr (dget msg "text") (dget msg "content")) (dget msg "rawText"))
    (.str ""))

/-- Text resolution of `export_nexflow_chat.py` line 51:
`(msg.get("text") or msg.get("content") or "").strip()` — no `rawText`,
no `message.text`. -/
def textNexflow51 (msg : List (String × PyVal)) : Except PyErr PyVal :=
  stripE (pyOr (pyOr (dget msg "text") (dget msg "content")) (.str ""))

/-- Text resolution of `export_bubbles_to_md.py` lines 76-78 (fan-out strategy):
`text = (b.get("text") or b.get("content") or b.get("rawText") or
b.get("message", \x7b\x7d).get("text") or "").strip()` followed by
`if isinstance(text, dict): text = text.get("text", "") or ""`.
Note `.strip()` is applied before the `isinstance` test. -/
def textFanout76 (b : List (String × PyVal)) : Except PyErr PyVal := do
  let v ← pyOrE (dget b "text") (pyOrE (dget b "content") (pyOrE (dget b "rawText")
    (do
      let mt ← mGet (dgetD b "message" (.dict [])) "text"
      pyOrE mt (pure (.str "")))))
  let t ← stripE v
  match t with
  | .dict m => pure (pyOr (dgetD m "text" (.str "")) (.str ""))
  | _ => pure t

/-! ### Timestamp resolvers -/

/-- Timestamp resolution of `export_bubbles_to_md.py` line 58 and
`export_nexflow_chat.py` line 52:
`msg.get("timingInfo", \x7b\x7d).get("clientStartTime") or msg.get("timestamp") or 0`. -/
def tsFromTimingInfo (msg : List (String × PyVal)) : Except PyErr PyVal := do
  let a ← mGet (dgetD msg "timingInfo" (.dict [])) "clientStartTime"
  pure (pyOr (pyOr a (dget msg "timestamp")) (.int 0))

/-- Timestamp resolution of `export_bubbles_to_md.py` line 79 (fan-out):
`(b.get("timingInfo") or \x7b\x7d).get("clientStartTime") or b.get("timestamp") or 0`. -/
def tsFanout79 (b : List (String × PyVal)) : Except PyErr PyVal := do
  let a ← mGet (pyOr (dget b "timingInfo") (.dict [])) "clientStartTime"
  pure (pyOr (pyOr a (dget b "timestamp")) (.int 0))

/-! ### Inline strategy rendering (`export_bubbles_to_md.py` lines 52-63) -/

/-- Lines emitted for one inline message (`export_bubbles_to_md.py` lines 53-62):
a `### Role (time)` header and, when the stripped text is truthy, the full
body plus a newline — no length cap on this path. -/
def inlineMsgLines (fmtTime : Int → String) (msg : PyVal) : Except PyErr (List String) :=
  match msg with
  | .dict m => do
    let role ← roleInline56 m
    let textV ← textInline57 m
    let ts ← tsFromTimingInfo m
    let timeStr ← timeStrE fmtTime ts
    pure (["### " ++ role ++ " (" ++ timeStr ++ ")\n"] ++
      (if textV.truthy then [pyStr textV ++ "\n"] else []))
  | _ => pure []

/-- Lines emitted for an inline conversation list, ending with the separator
(`export_bubbles_to_md.py` lines 52-63). -/
def inlineConvLines (fmtTime : Int → String) (conv : List PyVal) :
    Except PyErr (List String) := do
  let lss ← conv.mapM (inlineMsgLines fmtTime)
  pure (lss.flatten ++ ["\n---\n\n"])

/-! ### Fan-out strategy (`export_bubbles_to_md.py` lines 65-87) -/

/-- Body of the per-bubble `try` block (`export_bubbles_to_md.py` lines 71-84):
decode the raw value, resolve role/text/timestamp, emit header, the text
capped at 50000 characters when truthy, and a blank line. -/
def bubbleLines (fmtTime : Int → String) (parse : String → Option PyVal)
    (b64 : String → Option String) (val : String) : Except PyErr (List String) := do
  let bv ← decodePy parse b64 val
  match bv with
  | .dict b => do
    let role := roleFanout75 b
    let textV ← textFanout76 b
    let ts ← tsFanout79 b
    let timeStr ← timeStrE fmtTime ts
    let bodyLines ← if textV.truthy then do
        let sl ← sliceE textV 50000
        pure [pyStr sl ++ "\n"]
      else pure ([] : List String)
    pure (["### " ++ role ++ " (" ++ timeStr ++ ")\n"] ++ bodyLines ++ ["\n"])
  | v => .error (.attributeError ("'" ++ v.typeName ++ "' object has no attribute 'get'"))

/-- One fan-out bubble with its `except` handler (`export_bubbles_to_md.py`
lines 70-86): any exception becomes a diagnostic placeholder line. -/
def processBubble (fmtTime : Int → String) (parse : String → Option PyVal)
    (b64 : String → Option String) (val : String) : List String :=
  match bubbleLines fmtTime parse b64 val with
  | .ok ls => ls
  | .error e => ["*[解析 bubble 失败: " ++ e.message ++ "]*\n"]

instance : DecidableRel (fun a b : String × String => a.1.data ≤ b.1.data) :=
  fun a b => inferInstanceAs (Decidable (a.1.data ≤ b.1.data))

/-- Key sort of the fan-out rows (`export_bubbles_to_md.py` line 68):
`bubbles.sort(key=lambda x: x[0])` — Python's stable ascending sort by the
lexicographic (code-point) string order, modelled by the stable
`insertionSort`; the comparison is phrased on the strings' character lists,
which carry the same lexicographic order. -/
def sortBubbles (rows : List (String × String)) : List (String × String) :=
  rows.insertionSort (fun a b => a.1.data ≤ b.1.data)

/-- Lines of the whole fan-out strategy (`export_bubbles_to_md.py`
lines 66-87): sort the prefix-matched rows by key, process each bubble in
that order, close with the separator. -/
def fanoutLines (fmtTime : Int → String) (parse : String → Option PyVal)
    (b64 : String → Option String) (rows : List (String × String)) : List String :=
  ((sortBubbles rows).map (fun kv => processBubble fmtTime parse b64 kv.2)).flatten ++
    ["---\n\n"]

/-! ### Store queries (external collaborator `sqlite3`, modelled as an
association list of key-value rows) -/

/-- Exact-key query, `SELECT value FROM cursorDiskKV WHERE key = ?`. -/
def queryExact (store : List (String × String)) (k : String) : Option String :=
  (store.find? (fun e => e.1 == k)).map (·.2)

/-- Prefix query, `SELECT key, value FROM cursorDiskKV WHERE key LIKE 'pre%'`;
row order is the (unspecified) store order — the caller re-sorts. -/
def queryLike (store : List (String × String)) (pre : String) : List (String × String) :=
  store.filter (fun e => pre.isPrefixOf e.1)

/-! ### Per-composer processing (`export_bubbles_to_md.py` lines 31-87) -/

/-- Title resolution of `export_bubbles_to_md.py` line 47:
`data.get("name") or data.get("title") or cid` — no length cap. -/
def titleBubbles47 (data : List (String × PyVal)) (cid : String) : PyVal :=
  pyOr (pyOr (dget data "name") (dget data "title")) (.str cid)

/-- Lines appended for one requested composer id (`export_bubbles_to_md.py`
lines 32-87): a not-found annotation when the exact lookup misses, a
parse-error annotation when decode fails, else heading plus inline or
fan-out body.  Exceptions raised outside the two `try` blocks propagate. -/
def composerEntry (fmtTime : Int → String) (parse : String → Option PyVal)
    (b64 : String → Option String) (store : List (String × String)) (cid : String) :
    Except PyErr (List String) :=
  match queryExact store ("composerData:" ++ cid) with
  | Option.none => .ok ["## Composer " ++ cid ++ "\n(composerData 未在 global 中找到)\n\n"]
  | some raw =>
    match decodePy parse b64 raw with
    | .error e => .ok ["## Composer " ++ cid ++ "\n(解析错误: " ++ e.message ++ ")\n\n"]
    | .ok data => do
      let titleV := pyOr (pyOr (← mGet data "name") (← mGet data "title")) (.str cid)
      let heading := "## " ++ pyStr titleV ++ "\n\n"
      let conv := pyOr (pyOr (pyOr (← mGet data "conversation") (← mGet data "bubbles"))
        (← mGet data "messages")) (.list [])
      let fanoutBody : List String :=
        fanoutLines fmtTime parse b64 (queryLike store ("bubbleId:" ++ cid ++ ":"))
      match conv with
      | .list ms =>
        if 0 < ms.length then do
          let body ← inlineConvLines fmtTime ms
          pure ([heading] ++ body)
        else pure ([heading] ++ fanoutBody)
      | _ => pure ([heading] ++ fanoutBody)

/-- The whole per-composer loop (`export_bubbles_to_md.py` lines 31-87),
concatenating the lines contributed by each requested id in order; an
exception escaping an entry aborts the remaining iterations, as in Python. -/
def processComposers (fmtTime : Int → String) (parse : String → Option PyVal)
    (b64 : String → Option String) (store : List (String × String)) :
    List String → Except PyErr (List String)
  | [] => .ok []
  | cid :: cids => do
    let es ← composerEntry fmtTime parse b64 store cid
    let rest ← processComposers fmtTime parse b64 store cids
    pure (es ++ rest)

/-! ### Conversation extraction (`export_cursor_chat.py` lines 21-70) -/

/-- One extracted conversation record, as built at
`export_cursor_chat.py` line 47: `\x7b"id": key.replace(...), "data": data,
"workspace_id": workspace_id\x7d`; `source` models the `_source` key attached
later at line 106 (`Option.none` while the key is absent). -/
structure Conv where
  id : String
  data : PyVal
  workspaceId : Option String
  source : Option String
  deriving Repr

/-- Test of `export_cursor_chat.py` line 46:
`data.get("conversation") and len(data["conversation"]) > 0` — raises when
`data` is not a mapping (caught and skipped by the enclosing handler). -/
def hasConv46 (data : PyVal) : Except PyErr Bool := do
  let c ← mGet data "conversation"
  if c.truthy then do
    let n ← pyLen c
    pure (decide (0 < n))
  else pure false

/-- Processing of one `cursorDiskKV` row (`export_cursor_chat.py` lines
36-49): decode the value, keep it when it holds a non-empty `conversation`;
any failure skips the row (`continue`), never aborts. -/
def extractRowKV (parse : String → Option PyVal) (b64 : String → Option String)
    (wsid : Option String) (key val : String) : Option Conv :=
  match decodePy parse b64 val with
  | .error _ => Option.none
  | .ok data =>
    match hasConv46 data with
    | .error _ => Option.none
    | .ok true => some ⟨key.replace "composerData:" "", data, wsid, Option.none⟩
    | .ok false => Option.none

/-- The `cursorDiskKV` loop of `extract_from_db`
(`export_cursor_chat.py` lines 34-49). -/
def extractComposerRows (parse : String → Option PyVal) (b64 : String → Option String)
    (wsid : Option String) (rows : List (String × String)) : List Conv :=
  rows.filterMap (fun kv => extractRowKV parse b64 wsid kv.1 kv.2)

/-- Labelling of `export_cursor_chat.py` line 106: `c["_source"] = label`. -/
def setSource (label : String) (c : Conv) : Conv := { c with source := some label }

/-! ### Aggregator (`export_cursor_chat.py` lines 110-122) -/

/-- Python `conv[0]`: head of a list, first character of a string;
raises on the other types (`KeyError`-like failures are folded into
`TypeError` payloads, the distinction is never observed). -/
def pyIndexZero : PyVal → Except PyErr PyVal
  | .list (a :: _) => .ok a
  | .list [] => .error (.typeError "list index out of range")
  | .str s =>
    match s.data with
    | c :: _ => .ok (.str (String.mk [c]))
    | [] => .error (.typeError "string index out of range")
  | v => .error (.typeError ("'" ++ v.typeName ++ "' object is not subscriptable"))

/-- The aggregator's sort key (`export_cursor_chat.py` lines 111-115):
`conv = c.get("data", \x7b\x7d).get("conversation") or []`, `0` when falsy,
else `conv[0].get("timingInfo", \x7b\x7d).get("clientStartTime", 0)`.
`c.get("data", ...)` is the `data` field of the record built at line 47,
which is always present. -/
def sort_key (c : Conv) : Except PyErr PyVal := do
  let conv := pyOr (← mGet c.data "conversation") (.list [])
  if !conv.truthy then pure (.int 0)
  else do
    let first ← pyIndexZero conv
    let ti ← mGetD first "timingInfo" (.dict [])
    mGetD ti "clientStartTime" (.int 0)

/-- Numeric view of the sort key: Python's `list.sort` compares the extracted
keys with `<`, which succeeds only on numbers when ints are among the keys;
a non-numeric key makes the comparison raise `TypeError`, modelled here at
extraction time (faithful whenever two or more sessions are compared). -/
def sortKeyInt (c : Conv) : Except PyErr Int := do
  match (← sort_key c) with
  | .int n => pure n
  | .bool b => pure (if b then (1 : Int) else 0)
  | v =>
    .error (.typeError ("'<' not supported between instances of '" ++ v.typeName ++ "' and 'int'"))

instance : DecidableRel (fun a b : Int × Conv => a.1 ≤ b.1) :=
  fun a b => inferInstanceAs (Decidable (a.1 ≤ b.1))

/-- Stable ascending sort of the key-decorated sessions, the core of
`all_conversations.sort(key=sort_key)` (`export_cursor_chat.py` line 117). -/
def aggSortKeyed (keyed : List (Int × Conv)) : List (Int × Conv) :=
  keyed.insertionSort (fun a b => a.1 ≤ b.1)

/-- The aggregator's sort (`export_cursor_chat.py` line 117):
decorate every session with its `sort_key`, stable-sort ascending by key,
strip the keys. -/
def aggSort (l : List Conv) : Except PyErr (List Conv) := do
  let keyed ← l.mapM (fun c => do pure ((← sortKeyInt c), c))
  pure ((aggSortKeyed keyed).map (·.2))

/-- The source-label filter of `export_cursor_chat.py` line 120:
`c.get("_source") == "NEXFLOW" or c.get("_source") == "Global"`. -/
def isNexflowOrGlobal (c : Conv) : Bool :=
  c.source == some "NEXFLOW" || c.source == some "Global"

/-- Filter-with-fallback (`export_cursor_chat.py` lines 120-122): keep the
sessions matching the predicate; when none match, fall back to the whole
input.  The script instantiates `p` with `isNexflowOrGlobal`. -/
def selectConversations (p : Conv → Bool) (l : List Conv) : List Conv :=
  let f := l.filter p
  if f.isEmpty then l else f

/-- The script's concrete instance of the filter-with-fallback step. -/
def nexflowSelect (l : List Conv) : List Conv :=
  selectConversations isNexflowOrGlobal l

/-! ### Nexflow-workspace exporter titles (`export_nexflow_chat.py`) -/

/-- Composer id resolution of `export_nexflow_chat.py` line 40:
`comp.get("id") or comp.get("composerId") or ""`. -/
def cidNexflow40 (comp : List (String × PyVal)) : PyVal :=
  pyOr (pyOr (dget comp "id") (dget comp "composerId")) (.str "")

/-- Title resolution of `export_nexflow_chat.py` line 43:
`(comp.get("title") or comp.get("name") or cid or "未命名")[:80]` —
`title` is consulted before `name`, and the result is capped at 80
characters. -/
def titleNexflow43 (comp : List (String × PyVal)) (cid : PyVal) : Except PyErr PyVal :=
  sliceE (pyOr (pyOr (pyOr (dget comp "title") (dget comp "name")) cid) (.str "未命名")) 80

/-! ## Theorems about the claims -/

/-- C10: in the fan-out strategy (`export_bubbles_to_md.py` line 75), when the
`type` field is absent, `None`, or `0`, the numeric role check falls through to
the `role` field's value: a record with no `type` field whose `role` field is
the integer `1` resolves to User, and a record with `type = 0` is classified by
the `role` field (here `role = "user"` still yields User) rather than
unconditionally as Assistant. -/
theorem c10_fanout_role_fallthrough :
    roleFanout75 [("role", PyVal.int 1)] = "User" ∧
    (∀ r : PyVal,
      roleFanout75 [("type", PyVal.int 0), ("role", r)] = roleFanout75 [("role", r)]) ∧
    (∀ r : PyVal,
      roleFanout75 [("type", PyVal.none), ("role", r)] = roleFanout75 [("role", r)]) ∧
    roleFanout75 [("type", PyVal.int 0), ("role", PyVal.str "user")] = "User" := by
  refine ⟨by decide, ?_, ?_, by decide⟩ <;>
    · intro r
      simp [roleFanout75, dget, dgetD, pyOr, PyVal.truthy, List.find?]

/-- C1 counterexample: the claim says the resolved role is User exactly when
`type == 1` or the `role` field case-insensitively equals `"user"`, for every
decoded message record.  But `format_msg` (`export_cursor_chat.py` line 75)
ignores the `role` field entirely, and `export_nexflow_chat.py` line 50
compares case-sensitively: both resolve these records to Assistant. -/
theorem c1_role_claim_counterexample :
    formatMsgRole [("role", PyVal.str "user")] = "Assistant" ∧
    roleNexflow50 [("role", PyVal.str "USER")] = "Assistant" :=
  ⟨rfl, rfl⟩

/-- C1 amended: role resolution differs per exporter.  In `format_msg`
(`export_cursor_chat.py` line 75) the role is User exactly when `type == 1`;
in `export_nexflow_chat.py` line 50 exactly when `type == 1` or `role` equals
`"user"` case-sensitively; in the inline resolver of
`export_bubbles_to_md.py` line 56 exactly when `type == 1` or the
`role` field (absent, or a string) lowercases to `"user"`. -/
theorem c1_role_resolution_per_resolver (m : List (String × PyVal)) :
    (formatMsgRole m = "User" ↔ pyEq (dget m "type") (PyVal.int 1) = true) ∧
    (roleNexflow50 m = "User" ↔
      (pyEq (dget m "type") (PyVal.int 1) = true ∨
        pyEq (dget m "role") (PyVal.str "user") = true)) ∧
    (∀ s : String, dget m "role" = PyVal.str s →
      (roleInline56 m = .ok "User" ↔
        (pyEq (dget m "type") (PyVal.int 1) = true ∨ pyLowerStr s = "user"))) ∧
    (dget m "role" = PyVal.none →
      (roleInline56 m = .ok "User" ↔ pyEq (dget m "type") (PyVal.int 1) = true)) := by
  refine ⟨?_, ?_, ?_, ?_⟩
  · cases h : pyEq (dget m "type") (PyVal.int 1) <;> simp [formatMsgRole, h]
  · cases h : pyEq (dget m "type") (PyVal.int 1) <;>
      cases h' : pyEq (dget m "role") (PyVal.str "user") <;>
        simp [roleNexflow50, h, h']
  · intro s hs
    cases h : pyEq (dget m "type") (PyVal.int 1)
    · rw [roleInline56, if_neg (by simp [h]), hs]
      by_cases he : s = ""
      · subst he
        simp [pyOr, PyVal.truthy, lowerE, pyEq, pyLowerStr]
      · rw [pyOr, if_pos (by simp [PyVal.truthy, he])]
        simp [lowerE, pyEq, beq_iff_eq]
    · simp [roleInline56, h]
  · intro hs
    cases h : pyEq (dget m "type") (PyVal.int 1)
    · rw [roleInline56, if_neg (by simp [h]), hs]
      simp [pyOr, PyVal.truthy, lowerE, pyEq, pyLowerStr]
    · simp [roleInline56, h]

/-- C1 witness: a concrete record whose string `role` field lowercases to
`"user"` resolves to User in the inline resolver of `export_bubbles_to_md.py`. -/
theorem c1_role_resolution_witness :
    roleInline56 [("role", PyVal.str "USER")] = .ok "User" := by
  have h := (c1_role_resolution_per_resolver [("role", PyVal.str "USER")]).2.2.1 "USER" rfl
  exact h.mpr (Or.inr (by decide))

/-- C2: for any stdlib behaviours `parse`/`b64` and any raw value:
a directly parsable value decodes to the parsed mapping unchanged; when the
direct parse fails, a base64-decodable value decodes to the same result as
base64-decoding then parsing directly; decode fails exactly when both paths
fail; and the `extract_from_db` loop skips a record whose decode fails,
continuing with the remaining rows. -/
theorem c2_decode_spec (parse : String → Option PyVal) (b64 : String → Option String)
    (raw : String) :
    (∀ v, parse raw = some v → decodePy parse b64 raw = .ok v) ∧
    (parse raw = Option.none → ∀ s, b64 raw = some s →
      decodePy parse b64 raw =
        (match parse s with
         | some v => .ok v
         | Option.none => .error PyErr.jsonDecodeError)) ∧
    ((∃ e, decodePy parse b64 raw = .error e) ↔
      (parse raw = Option.none ∧ ∀ s, b64 raw = some s → parse s = Option.none)) ∧
    (∀ e, decodePy parse b64 raw = .error e →
      ∀ wsid key rest,
        extractComposerRows parse b64 wsid ((key, raw) :: rest) =
          extractComposerRows parse b64 wsid rest) := by
  refine ⟨?_, ?_, ?_, ?_⟩
  · intro v hv
    simp [decodePy, hv]
  · intro h s hs
    simp [decodePy, h, hs]
  · constructor
    · rintro ⟨e, he⟩
      cases hp : parse raw with
      | some v => simp [decodePy, hp] at he
      | none =>
        refine ⟨rfl, ?_⟩
        intro s hs
        cases hq : parse s with
        | some v => simp [decodePy, hp, hs, hq] at he
        | none => rfl
    · rintro ⟨h1, h2⟩
      cases hb : b64 raw with
      | some s => exact ⟨PyErr.jsonDecodeError, by simp [decodePy, h1, hb, h2 s hb]⟩
      | none => exact ⟨PyErr.binasciiError, by simp [decodePy, h1, hb]⟩
  · intro e he wsid key rest
    simp [extractComposerRows, extractRowKV, he]

/-- Concrete stdlib stand-ins for the C2 witness: `"OBJ"` parses directly,
`"ENC"` only base64-decodes to `"OBJ"`, `"BAD"` fails both paths. -/
def testParse : String → Option PyVal := fun s =>
  if s = "OBJ" then some (.dict [("conversation", .list [.dict []])]) else Option.none

/-- Base64 stand-in matching `testParse` for the C2 witness. -/
def testB64 : String → Option String := fun s =>
  if s = "ENC" then some "OBJ" else Option.none

/-- C2 witness: the decoder on concrete values of all three kinds, and the
loop skipping a concrete undecodable row. -/
theorem c2_decode_witness :
    decodePy testParse testB64 "OBJ" = .ok (.dict [("conversation", .list [.dict []])]) ∧
    decodePy testParse testB64 "ENC" = .ok (.dict [("conversation", .list [.dict []])]) ∧
    (∃ e, decodePy testParse testB64 "BAD" = .error e) ∧
    extractComposerRows testParse testB64 Option.none [("composerData:x", "BAD")] =
      extractComposerRows testParse testB64 Option.none [] := by
  refine ⟨(c2_decode_spec testParse testB64 "OBJ").1 _ rfl, ?_, ?_, ?_⟩
  · have h := (c2_decode_spec testParse testB64 "ENC").2.1 rfl "OBJ" rfl
    simpa [testParse] using h
  · exact ((c2_decode_spec testParse testB64 "BAD").2.2.1).mpr
      ⟨rfl, by intro s hs; simp [testB64] at hs⟩
  · obtain ⟨e, he⟩ := ((c2_decode_spec testParse testB64 "BAD").2.2.1).mpr
      ⟨rfl, by intro s hs; simp [testB64] at hs⟩
    exact (c2_decode_spec testParse testB64 "BAD").2.2.2 e he Option.none "composerData:x" []

/-- C3: the fan-out message assembly is ordered by lexicographic comparison
of the record keys: the sorted rows are pairwise key-ordered, a permutation
of the query result, and — for any two query return orders of the same
records (distinct keys) — identical, so the emitted lines are independent of
the order in which the query returned the records. -/
theorem c3_fanout_order (rows rows' : List (String × String))
    (hperm : rows.Perm rows') (hnodup : (rows.map Prod.fst).Nodup) :
    (sortBubbles rows).Pairwise (fun a b => a.1.data ≤ b.1.data) ∧
    (sortBubbles rows).Perm rows ∧
    sortBubbles rows = sortBubbles rows' ∧
    (∀ fmtTime parse b64,
      fanoutLines fmtTime parse b64 rows = fanoutLines fmtTime parse b64 rows') := by
  haveI : IsTotal (String × String) (fun a b => a.1.data ≤ b.1.data) :=
    ⟨fun a b => le_total a.1.data b.1.data⟩
  haveI : IsTrans (String × String) (fun a b => a.1.data ≤ b.1.data) :=
    ⟨fun _ _ _ hab hbc => le_trans hab hbc⟩
  have hsorted : ∀ l : List (String × String),
      (sortBubbles l).Pairwise (fun a b => a.1.data ≤ b.1.data) :=
    fun l => List.sorted_insertionSort _ l
  have hpermS : ∀ l : List (String × String), (sortBubbles l).Perm l :=
    fun l => List.perm_insertionSort _ l
  have hstrict : ∀ l : List (String × String), (l.map Prod.fst).Nodup →
      (sortBubbles l).Pairwise (fun a b => a.1.data < b.1.data) := by
    intro l hl
    have h2 : (sortBubbles l).Pairwise (fun a b => a.1 ≠ b.1) := by
      have h3 : ((sortBubbles l).map Prod.fst).Nodup :=
        (((hpermS l).map Prod.fst).nodup_iff).mpr hl
      exact List.pairwise_map.mp h3
    exact List.Pairwise.imp₂
      (fun a b hle hne =>
        lt_of_le_of_ne hle (fun hd => hne (congrArg String.mk hd)))
      (hsorted l) h2
  have heq : sortBubbles rows = sortBubbles rows' := by
    haveI : IsAntisymm (String × String) (fun a b => a.1.data < b.1.data) :=
      ⟨fun _ _ h1 h2 => absurd h2 (not_lt.mpr (le_of_lt h1))⟩
    have hnodup' : (rows'.map Prod.fst).Nodup :=
      ((hperm.map Prod.fst).nodup_iff).mp hnodup
    exact List.eq_of_perm_of_sorted
      ((hpermS rows).trans (hperm.trans (hpermS rows').symm))
      (hstrict rows hnodup) (hstrict rows' hnodup')
  refine ⟨hsorted rows, hpermS rows, heq, ?_⟩
  intro fmtTime parse b64
  rw [fanoutLines, fanoutLines, heq]

/-- C3 witness: the spec's example — keys suffixed `002`, `010`, `001`
assemble in the order `001, 002, 010`, and a different query return order of
the same rows sorts identically. -/
theorem c3_fanout_order_witness :
    sortBubbles [("bubbleId:S:002", "b"), ("bubbleId:S:010", "c"), ("bubbleId:S:001", "a")] =
      [("bubbleId:S:001", "a"), ("bubbleId:S:002", "b"), ("bubbleId:S:010", "c")] ∧
    sortBubbles [("bubbleId:S:002", "b"), ("bubbleId:S:010", "c"), ("bubbleId:S:001", "a")] =
      sortBubbles [("bubbleId:S:001", "a"), ("bubbleId:S:010", "c"), ("bubbleId:S:002", "b")] := by
  constructor
  · decide
  · exact (c3_fanout_order _ _ (by decide) (by decide)).2.2.1

/-- Parse stand-in for the C4 failing input: a bubble whose `text` field is
itself a mapping `\x7b"text": "hi"\x7d`. -/
def c4Parse : String → Option PyVal := fun s =>
  if s = "BUBBLE" then some (.dict [("text", .dict [("text", .str "hi")])]) else Option.none

/-- C4: the claim's mapping-valued text case.  The spec (and the dead guard
on `export_bubbles_to_md.py` lines 77-78) expects the `text` sub-field `"hi"`
to be extracted without the resolver failing; the code instead calls
`.strip()` on the mapping first (line 76), which raises `AttributeError`, so
the whole record is rendered as a parse-failure placeholder.  The
`isinstance(text, dict)` guard is unreachable: every successful `.strip()`
yields a string. -/
theorem c4_dict_text_resolver_fails :
    textFanout76 [("text", PyVal.dict [("text", PyVal.str "hi")])] =
      .error (.attributeError "'dict' object has no attribute 'strip'") ∧
    processBubble (fun _ => "") c4Parse (fun _ => Option.none) "BUBBLE" =
      ["*[解析 bubble 失败: 'dict' object has no attribute 'strip']*\n"] ∧
    (∀ v : PyVal, ∀ b : List (String × PyVal),
      textFanout76 b = .ok v → ∀ m, v ≠ PyVal.dict m) := by
  refine ⟨rfl, rfl, ?_⟩
  intro v b hv m
  rw [textFanout76] at hv
  cases hor : pyOrE (dget b "text") (pyOrE (dget b "content") (pyOrE (dget b "rawText")
    (do
      let mt ← mGet (dgetD b "message" (.dict [])) "text"
      pyOrE mt (pure (.str ""))))) with
  | error e => rw [hor] at hv; exact absurd hv (by simp [Bind.bind, Except.bind])
  | ok w =>
    rw [hor] at hv
    simp only [Bind.bind, Except.bind] at hv
    cases hw : stripE w with
    | error e => rw [hw] at hv; exact absurd hv (by simp)
    | ok t =>
      rw [hw] at hv
      cases w with
      | str s =>
        simp only [stripE, Except.ok.injEq] at hw
        subst hw
        simp only [pure, Except.pure, Except.ok.injEq] at hv
        subst hv
        intro hcon
        cases hcon
      | none => exact absurd hw (by simp [stripE])
      | bool b' => exact absurd hw (by simp [stripE])
      | int n => exact absurd hw (by simp [stripE])
      | list l => exact absurd hw (by simp [stripE])
      | dict d => exact absurd hw (by simp [stripE])

/-- C4 witness: a string-valued `text` field resolves normally, and the
resolved value is (as always on the success path) not a mapping — the
concrete instance of the dead-guard fact. -/
theorem c4_dict_text_resolver_fails_witness :
    textFanout76 [("text", PyVal.str "hi")] = .ok (PyVal.str "hi") ∧
    (∀ m, PyVal.str "hi" ≠ PyVal.dict m) :=
  ⟨rfl, c4_dict_text_resolver_fails.2.2 (PyVal.str "hi") [("text", PyVal.str "hi")] rfl⟩

/-- Message body of 60000 characters, the spec's truncation test case. -/
def body60k : String := String.mk (List.replicate 60000 'a')

theorem stripChars_replicate_a (n : Nat) :
    stripChars (List.replicate n 'a') = List.replicate n 'a' := by
  have h : isPySpace 'a' = false := by decide
  simp [stripChars, List.dropWhile_replicate, h]

theorem strip_body60k : pyStripStr body60k = body60k := by
  rw [body60k, pyStripStr]
  exact congrArg String.mk (stripChars_replicate_a 60000)

theorem string_mk_length (l : List Char) : (String.mk l).length = l.length := rfl

theorem body60k_length : body60k.length = 60000 := by
  rw [body60k, string_mk_length, List.length_replicate]

theorem body60k_ne_empty : body60k ≠ "" := by
  intro h
  have h2 : body60k.length = 0 := by rw [h]; rfl
  rw [body60k_length] at h2
  exact absurd h2 (by decide)

/-- Helper: rendering of an inline message holding only a (stripped,
non-empty) `text` string emits the header and the full body. -/
theorem inlineMsgLines_textOnly (fmtTime : Int → String) (s : String)
    (hstrip : pyStripStr s = s) (hne : s ≠ "") :
    inlineMsgLines fmtTime (.dict [("text", PyVal.str s)]) =
      .ok ["### Assistant ()\n", s ++ "\n"] := by
  simp [inlineMsgLines, roleInline56, textInline57, tsFromTimingInfo, timeStrE,
    dget, dgetD, mGet, pyOr, pyOrE, PyVal.truthy, lowerE, stripE, pyEq, pyStr,
    pyLowerStr, hstrip, hne, Bind.bind, Except.bind, pure, Except.pure, List.find?]

/-- Helper: rendering of a fan-out bubble holding only a (stripped,
non-empty) `text` string emits the header, the body capped at 50000
characters, and a blank line — and nothing else. -/
theorem bubbleLines_textOnly (fmtTime : Int → String) (parse : String → Option PyVal)
    (b64 : String → Option String) (val : String) (s : String)
    (hstrip : pyStripStr s = s) (hne : s ≠ "")
    (hdec : decodePy parse b64 val = .ok (.dict [("text", PyVal.str s)])) :
    bubbleLines fmtTime parse b64 val =
      .ok ["### Assistant ()\n", pySliceStr s 50000 ++ "\n", "\n"] := by
  rw [bubbleLines, hdec]
  simp [roleFanout75, textFanout76, tsFanout79, timeStrE, sliceE,
    dget, dgetD, mGet, pyOr, pyOrE, PyVal.truthy, stripE, pyEq, pyStr,
    pyLowerStr, hstrip, hne, Bind.bind, Except.bind, pure, Except.pure, List.find?]

/-- C5 counterexample: the claim says the 50000-character cap (plus a
truncation indicator) applies at rendering in every strategy; but the inline
strategy of `export_bubbles_to_md.py` (lines 61-62) emits a 60000-character
body in full, uncapped and with no indicator. -/
theorem c5_truncation_counterexample :
    inlineMsgLines (fun _ => "") (.dict [("text", PyVal.str body60k)]) =
      .ok ["### Assistant ()\n", body60k ++ "\n"] ∧
    (body60k ++ "\n").length = 60001 := by
  refine ⟨inlineMsgLines_textOnly _ _ strip_body60k body60k_ne_empty, ?_⟩
  rw [String.length_append, body60k_length]
  rfl

/-- C5 amended: only the fan-out strategy of `export_bubbles_to_md.py`
(line 83) caps the rendered body, at exactly 50000 characters and with no
truncation indicator (the emitted lines are exactly header, capped body,
blank line); the inline strategy emits the full body.  Resolution itself
keeps the full string in both cases. -/
theorem c5_truncation_only_fanout (fmtTime : Int → String) (s : String)
    (hstrip : pyStripStr s = s) (hne : s ≠ "") :
    inlineMsgLines fmtTime (.dict [("text", PyVal.str s)]) =
      .ok ["### Assistant ()\n", s ++ "\n"] ∧
    (∀ parse b64 val, decodePy parse b64 val = .ok (.dict [("text", PyVal.str s)]) →
      bubbleLines fmtTime parse b64 val =
        .ok ["### Assistant ()\n", pySliceStr s 50000 ++ "\n", "\n"]) ∧
    (pySliceStr s 50000).length = min 50000 s.length := by
  refine ⟨inlineMsgLines_textOnly fmtTime s hstrip hne, ?_, ?_⟩
  · intro parse b64 val hdec
    exact bubbleLines_textOnly fmtTime parse b64 val s hstrip hne hdec
  · rw [pySliceStr, string_mk_length, List.length_take]
    rfl

/-- Parse stand-in for the C5 witness: decodes to a bubble with the
60000-character body. -/
def c5Parse : String → Option PyVal := fun t =>
  if t = "B60" then some (.dict [("text", PyVal.str body60k)]) else Option.none

/-- C5 witness: at the 60000-character body, the fan-out render emits exactly
50000 body characters and no indicator, while the inline render emits all
60000. -/
theorem c5_truncation_witness :
    inlineMsgLines (fun _ => "") (.dict [("text", PyVal.str body60k)]) =
      .ok ["### Assistant ()\n", body60k ++ "\n"] ∧
    bubbleLines (fun _ => "") c5Parse (fun _ => Option.none) "B60" =
      .ok ["### Assistant ()\n", pySliceStr body60k 50000 ++ "\n", "\n"] ∧
    (pySliceStr body60k 50000).length = 50000 := by
  have h := c5_truncation_only_fanout (fun _ => "") body60k strip_body60k body60k_ne_empty
  refine ⟨h.1, h.2.1 c5Parse (fun _ => Option.none) "B60" (by simp [c5Parse, decodePy]), ?_⟩
  rw [h.2.2, body60k_length]
  decide

theorem filter_orderedInsert_eq_key (t : Int) (x : Int × Conv) (l : List (Int × Conv))
    (hx : x.1 = t) :
    ((List.orderedInsert (fun a b => a.1 ≤ b.1) x l).filter (fun a => decide (a.1 = t))) =
      x :: l.filter (fun a => decide (a.1 = t)) := by
  induction l with
  | nil => simp [List.orderedInsert, hx]
  | cons b bs ih =>
    rw [List.orderedInsert]
    by_cases h : x.1 ≤ b.1
    · rw [if_pos h]
      simp [List.filter_cons, hx]
    · rw [if_neg h]
      have hb : ¬(b.1 = t) := by omega
      simp [List.filter_cons, hb, ih]

theorem filter_orderedInsert_ne_key (t : Int) (x : Int × Conv) (l : List (Int × Conv))
    (hx : x.1 ≠ t) :
    ((List.orderedInsert (fun a b => a.1 ≤ b.1) x l).filter (fun a => decide (a.1 = t))) =
      l.filter (fun a => decide (a.1 = t)) := by
  induction l with
  | nil => simp [List.orderedInsert, hx]
  | cons b bs ih =>
    rw [List.orderedInsert]
    by_cases h : x.1 ≤ b.1
    · rw [if_pos h]
      simp [List.filter_cons, hx]
    · rw [if_neg h]
      simp [List.filter_cons, ih]

theorem insertionSort_filter_key (t : Int) (keyed : List (Int × Conv)) :
    ((keyed.insertionSort (fun a b => a.1 ≤ b.1)).filter (fun a => decide (a.1 = t))) =
      keyed.filter (fun a => decide (a.1 = t)) := by
  induction keyed with
  | nil => rfl
  | cons x xs ih =>
    rw [List.insertionSort]
    by_cases hx : x.1 = t
    · rw [filter_orderedInsert_eq_key t x _ hx, ih]
      simp [List.filter_cons, hx]
    · rw [filter_orderedInsert_ne_key t x _ hx, ih]
      simp [List.filter_cons, hx]

/-- C6: the aggregator sort (`export_cursor_chat.py` lines 111-117).  When
every session's key extraction succeeds (`keyed` is the input decorated with
its first-message timestamps, 0 for missing), the output is the
key-decorated list stably sorted ascending and stripped: it is pairwise
ordered by key, a permutation of the input, and sessions with any given
(equal or missing) key value retain their relative input order. -/
theorem c6_aggregator_sort (l : List Conv) (keyed : List (Int × Conv))
    (h : l.mapM (fun c => do pure ((← sortKeyInt c), c)) = Except.ok keyed) :
    aggSort l = .ok ((aggSortKeyed keyed).map (·.2)) ∧
    (aggSortKeyed keyed).Pairwise (fun a b => a.1 ≤ b.1) ∧
    (aggSortKeyed keyed).Perm keyed ∧
    (∀ t : Int, (aggSortKeyed keyed).filter (fun a => decide (a.1 = t)) =
      keyed.filter (fun a => decide (a.1 = t))) := by
  refine ⟨?_, ?_, List.perm_insertionSort _ _, fun t => insertionSort_filter_key t keyed⟩
  · simp only [aggSort, h]
    rfl
  · haveI : IsTotal (Int × Conv) (fun a b => a.1 ≤ b.1) := ⟨fun a b => le_total a.1 b.1⟩
    haveI : IsTrans (Int × Conv) (fun a b => a.1 ≤ b.1) := ⟨fun _ _ _ hab hbc => le_trans hab hbc⟩
    exact List.sorted_insertionSort _ _

/-- Session fixture for the C6 witness: first-message timestamp 5. -/
def c6SessionA : Conv :=
  ⟨"a", .dict [("conversation",
    .list [.dict [("timingInfo", .dict [("clientStartTime", .int 5)])]])],
    Option.none, Option.none⟩

/-- Second session fixture for the C6 witness: same timestamp, later in the
input. -/
def c6SessionB : Conv :=
  ⟨"b", .dict [("conversation",
    .list [.dict [("timingInfo", .dict [("clientStartTime", .int 5)])]])],
    Option.none, Option.none⟩

/-- C6 witness: two sessions with identical first-message timestamps keep
their relative input order through the aggregator sort. -/
theorem c6_aggregator_sort_witness :
    aggSort [c6SessionA, c6SessionB] = .ok [c6SessionA, c6SessionB] ∧
    (aggSortKeyed [(5, c6SessionA), (5, c6SessionB)]).filter (fun a => decide (a.1 = 5)) =
      [(5, c6SessionA), (5, c6SessionB)].filter (fun a => decide (a.1 = 5)) := by
  have h := c6_aggregator_sort [c6SessionA, c6SessionB] [(5, c6SessionA), (5, c6SessionB)] rfl
  exact ⟨by rw [h.1]; rfl, h.2.2.2 5⟩

/-- C7: the aggregator's filter-with-fallback (`export_cursor_chat.py`
lines 120-122).  For every predicate over the source labels: a non-empty
filtered subsequence is returned as is; an empty one falls back to the whole
input; hence the output is empty only when the input is empty.  The script's
concrete filter is `isNexflowOrGlobal`. -/
theorem c7_filter_fallback (p : Conv → Bool) (l : List Conv) :
    (l.filter p ≠ [] → selectConversations p l = l.filter p) ∧
    (l.filter p = [] → selectConversations p l = l) ∧
    (selectConversations p l = [] ↔ l = []) ∧
    nexflowSelect l = selectConversations isNexflowOrGlobal l := by
  refine ⟨?_, ?_, ?_, rfl⟩
  · intro h
    rw [selectConversations]
    cases hf : l.filter p with
    | nil => exact absurd hf h
    | cons a as => rfl
  · intro h
    simp [selectConversations, h]
  · constructor
    · intro h
      cases hf : l.filter p with
      | nil =>
        rw [selectConversations, hf] at h
        exact h
      | cons a as =>
        rw [selectConversations, hf] at h
        exact absurd h (List.cons_ne_nil a as)
    · intro h
      subst h
      rfl

/-- Session fixtures for the C7 witness: one with a foreign source label,
one labelled NEXFLOW. -/
def c7SessionOther : Conv := ⟨"w", PyVal.none, Option.none, some "Other"⟩

/-- NEXFLOW-labelled session fixture for the C7 witness. -/
def c7SessionNex : Conv := ⟨"n", PyVal.none, Option.none, some "NEXFLOW"⟩

/-- C7 witness: with no matching label the whole input comes back; with a
matching label only the filtered subsequence does. -/
theorem c7_filter_fallback_witness :
    nexflowSelect [c7SessionOther] = [c7SessionOther] ∧
    nexflowSelect [c7SessionOther, c7SessionNex] = [c7SessionNex] := by
  have h1 := c7_filter_fallback isNexflowOrGlobal [c7SessionOther]
  have h2 := c7_filter_fallback isNexflowOrGlobal [c7SessionOther, c7SessionNex]
  have hf1 : List.filter isNexflowOrGlobal [c7SessionOther] = [] := rfl
  have hf2 : List.filter isNexflowOrGlobal [c7SessionOther, c7SessionNex] = [c7SessionNex] := rfl
  constructor
  · rw [h1.2.2.2]
    exact h1.2.1 hf1
  · rw [h2.2.2.2, h2.1 (by rw [hf2]; exact List.cons_ne_nil _ _), hf2]

/-- Title of a rendered session entry: the text of its heading line between
the leading `## ` and the first newline. -/
def headingTitle (line : String) : String :=
  String.mk ((line.data.drop 3).takeWhile (· != '\n'))

/-- C8 counterexample: the claim says the entry produced for a missing
session id carries a title equal to the session id; the code
(`export_bubbles_to_md.py` line 35) titles it `Composer <id>` instead. -/
theorem c8_missing_session_counterexample :
    composerEntry (fun _ => "") (fun _ => Option.none) (fun _ => Option.none) [] "abc" =
      .ok ["## Composer abc\n(composerData 未在 global 中找到)\n\n"] ∧
    headingTitle "## Composer abc\n(composerData 未在 global 中找到)\n\n" = "Composer abc" ∧
    "Composer abc" ≠ "abc" := by
  refine ⟨rfl, by decide, by decide⟩

/-- C8 amended: for a session id with no record in the store, the assembler
emits a single annotated entry — heading `Composer <id>` (not the bare id),
the "not found in global" annotation, and no message lines — rather than
failing, and processing continues with the remaining session ids. -/
theorem c8_missing_session_entry (fmtTime : Int → String) (parse : String → Option PyVal)
    (b64 : String → Option String) (store : List (String × String)) (cid : String)
    (cids : List String)
    (h : queryExact store ("composerData:" ++ cid) = Option.none) :
    composerEntry fmtTime parse b64 store cid =
      .ok ["## Composer " ++ cid ++ "\n(composerData 未在 global 中找到)\n\n"] ∧
    processComposers fmtTime parse b64 store (cid :: cids) =
      (processComposers fmtTime parse b64 store cids).map
        (fun ls => ("## Composer " ++ cid ++ "\n(composerData 未在 global 中找到)\n\n") :: ls) := by
  have h1 : composerEntry fmtTime parse b64 store cid =
      .ok ["## Composer " ++ cid ++ "\n(composerData 未在 global 中找到)\n\n"] := by
    rw [composerEntry, h]
  refine ⟨h1, ?_⟩
  cases hm : processComposers fmtTime parse b64 store cids with
  | error e =>
    simp [processComposers, h1, hm, Except.map, Bind.bind, Except.bind]
  | ok ess =>
    simp [processComposers, h1, hm, Except.map, Bind.bind, Except.bind, pure, Except.pure]

/-- C8 witness: two missing session ids produce their two annotated entries
in order, the run succeeding. -/
theorem c8_missing_session_entry_witness :
    processComposers (fun _ => "") (fun _ => Option.none) (fun _ => Option.none) []
      ["abc", "xyz"] =
      .ok ["## Composer abc\n(composerData 未在 global 中找到)\n\n",
        "## Composer xyz\n(composerData 未在 global 中找到)\n\n"] := by
  have h := c8_missing_session_entry (fun _ => "") (fun _ => Option.none)
    (fun _ => Option.none) [] "abc" ["xyz"] rfl
  rw [h.2]
  rfl

/-- C9 counterexample: the claim says the title is resolved from `name`
first, then `title`; but `export_nexflow_chat.py` line 43 consults `title`
first — a record carrying both resolves to the `title` value. -/
theorem c9_title_counterexample :
    titleNexflow43 [("name", PyVal.str "A"), ("title", PyVal.str "B")] (PyVal.str "cid") =
      .ok (.str "B") ∧
    ¬ titleNexflow43 [("name", PyVal.str "A"), ("title", PyVal.str "B")] (PyVal.str "cid") =
      .ok (.str "A") := by
  have h0 : titleNexflow43 [("name", PyVal.str "A"), ("title", PyVal.str "B")]
      (PyVal.str "cid") = .ok (.str "B") := rfl
  refine ⟨h0, fun h => ?_⟩
  rw [h0] at h
  simp at h

/-- C9 amended: `export_bubbles_to_md.py` line 47 (single known sessions)
resolves `name`, else `title`, else the raw id, uncapped;
`export_nexflow_chat.py` line 43 (collection of many sessions) resolves
`title` first, else `name`, else the id, capped at 80 characters. -/
theorem c9_title_resolution (data comp : List (String × PyVal)) (cid : String) (cidV : PyVal) :
    (∀ s : String, dget data "name" = PyVal.str s → s ≠ "" →
      titleBubbles47 data cid = PyVal.str s) ∧
    (dget data "name" = PyVal.none → ∀ s : String, dget data "title" = PyVal.str s → s ≠ "" →
      titleBubbles47 data cid = PyVal.str s) ∧
    (dget data "name" = PyVal.none → dget data "title" = PyVal.none →
      titleBubbles47 data cid = PyVal.str cid) ∧
    (∀ s : String, dget comp "title" = PyVal.str s → s ≠ "" →
      titleNexflow43 comp cidV = .ok (.str (pySliceStr s 80))) ∧
    (∀ s : String, titleNexflow43 comp cidV = .ok (PyVal.str s) → s.length ≤ 80) := by
  refine ⟨?_, ?_, ?_, ?_, ?_⟩
  · intro s hs hne
    rw [titleBubbles47, hs]
    simp [pyOr, PyVal.truthy, hne]
  · intro hn s hs hne
    rw [titleBubbles47, hn, hs]
    simp [pyOr, PyVal.truthy, hne]
  · intro hn ht
    rw [titleBubbles47, hn, ht]
    simp [pyOr, PyVal.truthy]
  · intro s hs hne
    rw [titleNexflow43, hs]
    simp [pyOr, PyVal.truthy, hne, sliceE]
  · intro s hs
    rw [titleNexflow43] at hs
    cases w : pyOr (pyOr (pyOr (dget comp "title") (dget comp "name")) cidV) (.str "未命名") with
    | str s' =>
      rw [w] at hs
      simp only [sliceE, Except.ok.injEq, PyVal.str.injEq] at hs
      rw [← hs, pySliceStr, string_mk_length, List.length_take]
      exact Nat.min_le_left _ _
    | list l =>
      rw [w] at hs
      simp [sliceE] at hs
    | none => rw [w] at hs; simp [sliceE] at hs
    | bool b => rw [w] at hs; simp [sliceE] at hs
    | int n => rw [w] at hs; simp [sliceE] at hs
    | dict d => rw [w] at hs; simp [sliceE] at hs

/-- C9 witness: concrete records — `name` wins in the per-id exporter,
`title` wins (capped) in the collection exporter. -/
theorem c9_title_resolution_witness :
    titleBubbles47 [("name", PyVal.str "A"), ("title", PyVal.str "B")] "cid" = PyVal.str "A" ∧
    titleNexflow43 [("title", PyVal.str "B")] (PyVal.str "cid") =
      .ok (.str (pySliceStr "B" 80)) := by
  have h := c9_title_resolution [("name", PyVal.str "A"), ("title", PyVal.str "B")]
    [("title", PyVal.str "B")] "cid" (PyVal.str "cid")
  exact ⟨h.1 "A" rfl (by decide), h.2.2.2.1 "B" rfl (by decide)⟩

end AxiNexflow
